import Mathlib

/-!
Shallow embedding of the grain-weighing settlement calculation of the
`testes_fazendas` repository (`src/core/models.py`, class `Romaneio` and its
`save` hook, together with the reference models `TabelaClassificacao` and
`TaxaArmazem`).

All quantities in the source are Python `Decimal` values; every operation the
calculation performs (subtraction, addition, multiplication, division by the
literal 100) is exact on these operands, so the arithmetic is modelled by `ℚ`.
Nullable fields (`null=True` in the model, or in-memory `None`) are modelled by
`Option ℚ`; the source's `x or 0` coercion is `Option.getD 0`.  The database
lookup `TabelaClassificacao.objects.filter(empresa=..., cultura__iexact=...)
.first()` is modelled by a lookup function `String → Option TabelaClassificacao`
supplied by the environment (tenant scoping and case-insensitive matching are
folded into that function, as the calculation itself only consumes its result).
-/

namespace Fazendas

/-- `TabelaClassificacao` (src/core/models.py:1170-1187): per-crop reference
thresholds used by the weighing calculation.  Only the four numeric columns
read by `Romaneio.save` are modelled. -/
structure TabelaClassificacao where
  padrao_umidade : ℚ
  padrao_impureza : ℚ
  padrao_avariado : ℚ
  taxa_secagem : ℚ
deriving DecidableEq

/-- `TaxaArmazem` (src/core/models.py:1597-1634): third-party warehouse rates.
Only `quebra_tecnica` (line 1625) is read by `Romaneio.save`; the billing-rate
columns are never consulted by the calculation and are omitted. -/
structure TaxaArmazem where
  quebra_tecnica : Option ℚ
deriving DecidableEq

/-- `Romaneio` (src/core/models.py:1190-1219): the weighing-ticket record.
`plantio` is represented by the crop name (`self.plantio.cultura`) that the
save hook feeds to the classification lookup; identifying fields are kept as
plain strings. -/
@[ext]
structure Romaneio where
  data : String
  numero_ticket : String
  fazenda : String
  talhao : String
  plantio : Option String
  motorista : Option String
  placa : Option String
  peso_tara : Option ℚ
  peso_bruto : Option ℚ
  umidade_percentual : Option ℚ
  impureza_percentual : Option ℚ
  avariado_percentual : Option ℚ
  desconto_kg_umidade : ℚ
  desconto_kg_impureza : ℚ
  desconto_kg_avariado : ℚ
  total_descontos_kg : ℚ
  armazem_terceiro : Option TaxaArmazem
  peso_quebra_tecnica : ℚ
  peso_liquido : Option ℚ
deriving DecidableEq

/-- `Romaneio.peso_carga` property (src/core/models.py:1227-1230):
`(self.peso_bruto or Decimal('0')) - (self.peso_tara or Decimal('0'))`. -/
def Romaneio.peso_carga (r : Romaneio) : ℚ :=
  r.peso_bruto.getD 0 - r.peso_tara.getD 0

/-- Default / table-resolved moisture standard (src/core/models.py:1258,1271):
`Decimal('14.00')` unless a classification table was found. -/
def padraoUmid (tabela : Option TabelaClassificacao) : ℚ :=
  match tabela with
  | some t => t.padrao_umidade
  | none => 14

/-- Default / table-resolved impurity standard (src/core/models.py:1259,1272). -/
def padraoImp (tabela : Option TabelaClassificacao) : ℚ :=
  match tabela with
  | some t => t.padrao_impureza
  | none => 1

/-- Default / table-resolved damage standard (src/core/models.py:1260,1273). -/
def padraoAvar (tabela : Option TabelaClassificacao) : ℚ :=
  match tabela with
  | some t => t.padrao_avariado
  | none => 0

/-- Default / table-resolved drying fee (src/core/models.py:1261,1274). -/
def taxaSec (tabela : Option TabelaClassificacao) : ℚ :=
  match tabela with
  | some t => t.taxa_secagem
  | none => 0

/-- The moisture-deduction block (src/core/models.py:1276-1281): when measured
moisture strictly exceeds the standard, charge the excess plus the drying fee,
each as `peso_carga * (rate / 100)`. -/
def descontoUmidadeCalc (peso_carga umidade padrao_umid taxa_sec : ℚ) : ℚ :=
  if padrao_umid < umidade then
    peso_carga * ((umidade - padrao_umid) / 100) + peso_carga * (taxa_sec / 100)
  else 0

/-- The impurity/damage deduction blocks (src/core/models.py:1283-1291): charge
the strict excess over the standard as `peso_carga * (excess / 100)`. -/
def descontoExcessoCalc (peso_carga pct padrao : ℚ) : ℚ :=
  if padrao < pct then peso_carga * ((pct - padrao) / 100) else 0

/-- The technical-shrinkage block (src/core/models.py:1308-1314): when a
third-party warehouse is linked, the shrinkage is the post-classification
weight times `(quebra_tecnica or 0) / 100`; otherwise 0 is stored (the local
`quebra_tec` also stays at its initial `Decimal('0.00')` in that branch). -/
def quebraTecnicaCalc (armazem : Option TaxaArmazem) (peso_pos_classificacao : ℚ) : ℚ :=
  match armazem with
  | some a => peso_pos_classificacao * (a.quebra_tecnica.getD 0 / 100)
  | none => 0

/-- The body of `Romaneio.save` (src/core/models.py:1242-1316) once the
classification table has been resolved: computes the three deductions, applies
the zero-means-unset manual-override rule (lines 1293-1301), totals them,
derives technical shrinkage from the linked warehouse (lines 1308-1314) and the
net weight (line 1316), and writes only those derived fields back. -/
def Romaneio.saveCom (tabela : Option TabelaClassificacao) (r : Romaneio) : Romaneio :=
  let peso_bruto : ℚ := r.peso_bruto.getD 0
  let peso_tara : ℚ := r.peso_tara.getD 0
  let umidade : ℚ := r.umidade_percentual.getD 0
  let impureza : ℚ := r.impureza_percentual.getD 0
  let avariado : ℚ := r.avariado_percentual.getD 0
  let peso_carga := peso_bruto - peso_tara
  let desconto_umidade := descontoUmidadeCalc peso_carga umidade (padraoUmid tabela) (taxaSec tabela)
  let desconto_impureza := descontoExcessoCalc peso_carga impureza (padraoImp tabela)
  let desconto_avariado := descontoExcessoCalc peso_carga avariado (padraoAvar tabela)
  let desconto_kg_umidade := if r.desconto_kg_umidade = 0 then desconto_umidade else r.desconto_kg_umidade
  let desconto_kg_impureza := if r.desconto_kg_impureza = 0 then desconto_impureza else r.desconto_kg_impureza
  let desconto_kg_avariado := if r.desconto_kg_avariado = 0 then desconto_avariado else r.desconto_kg_avariado
  let total_descontos_kg := desconto_kg_umidade + desconto_kg_impureza + desconto_kg_avariado
  let peso_pos_classificacao := peso_carga - total_descontos_kg
  let quebra_tec : ℚ := quebraTecnicaCalc r.armazem_terceiro peso_pos_classificacao
  { r with
    desconto_kg_umidade := desconto_kg_umidade
    desconto_kg_impureza := desconto_kg_impureza
    desconto_kg_avariado := desconto_kg_avariado
    total_descontos_kg := total_descontos_kg
    peso_quebra_tecnica := quebra_tec
    peso_liquido := some (peso_pos_classificacao - quebra_tec) }

/-- The classification-table resolution of `Romaneio.save`
(src/core/models.py:1263-1274): only when the ticket has a `plantio` is the
table looked up by its crop name. -/
def Romaneio.tabelaResolvida (lookup : String → Option TabelaClassificacao)
    (r : Romaneio) : Option TabelaClassificacao :=
  r.plantio.bind lookup

/-- `Romaneio.save` (src/core/models.py:1242-1317): resolve the classification
table, then run the settlement calculation. -/
def Romaneio.save (lookup : String → Option TabelaClassificacao) (r : Romaneio) : Romaneio :=
  r.saveCom (r.tabelaResolvida lookup)

/-- The hardcoded fallback standard (src/core/models.py:1257-1261) packaged as
a table value: moisture 14.00 %, impurity 1.00 %, damage 0.00 %, fee 0.00 %. -/
def tabelaPadrao : TabelaClassificacao :=
  { padrao_umidade := 14, padrao_impureza := 1, padrao_avariado := 0, taxa_secagem := 0 }

/-- A blank ticket used to build concrete test inputs. -/
def romaneioBase : Romaneio :=
  { data := "2024-01-01"
    numero_ticket := "R-1"
    fazenda := "F1"
    talhao := "T1"
    plantio := none
    motorista := none
    placa := none
    peso_tara := some 0
    peso_bruto := some 0
    umidade_percentual := some 0
    impureza_percentual := some 0
    avariado_percentual := some 0
    desconto_kg_umidade := 0
    desconto_kg_impureza := 0
    desconto_kg_avariado := 0
    total_descontos_kg := 0
    armazem_terceiro := none
    peso_quebra_tecnica := 0
    peso_liquido := none }

/-- The moisture deduction `Romaneio.save` computes for a given ticket before
the manual-override rule is applied (src/core/models.py:1276-1281 with the
standards resolved by lines 1257-1274). -/
def Romaneio.descontoUmidadeCalculado (lookup : String → Option TabelaClassificacao)
    (r : Romaneio) : ℚ :=
  descontoUmidadeCalc r.peso_carga (r.umidade_percentual.getD 0)
    (padraoUmid (r.tabelaResolvida lookup)) (taxaSec (r.tabelaResolvida lookup))

/-- The impurity deduction computed before the manual-override rule
(src/core/models.py:1283-1286). -/
def Romaneio.descontoImpurezaCalculado (lookup : String → Option TabelaClassificacao)
    (r : Romaneio) : ℚ :=
  descontoExcessoCalc r.peso_carga (r.impureza_percentual.getD 0)
    (padraoImp (r.tabelaResolvida lookup))

/-- The damage deduction computed before the manual-override rule
(src/core/models.py:1288-1291). -/
def Romaneio.descontoAvariadoCalculado (lookup : String → Option TabelaClassificacao)
    (r : Romaneio) : ℚ :=
  descontoExcessoCalc r.peso_carga (r.avariado_percentual.getD 0)
    (padraoAvar (r.tabelaResolvida lookup))

/-- The tuple of fields `Romaneio.save` derives and writes back
(src/core/models.py:1293-1316). -/
def Romaneio.derivados (r : Romaneio) : ℚ × ℚ × ℚ × ℚ × ℚ × Option ℚ :=
  (r.desconto_kg_umidade, r.desconto_kg_impureza, r.desconto_kg_avariado,
    r.total_descontos_kg, r.peso_quebra_tecnica, r.peso_liquido)

section ProjectionLemmas

variable (lookup : String → Option TabelaClassificacao) (t : Option TabelaClassificacao)
  (r : Romaneio)

@[simp] lemma saveCom_data : (Romaneio.saveCom t r).data = r.data := rfl

@[simp] lemma saveCom_numero_ticket : (Romaneio.saveCom t r).numero_ticket = r.numero_ticket := rfl

@[simp] lemma saveCom_fazenda : (Romaneio.saveCom t r).fazenda = r.fazenda := rfl

@[simp] lemma saveCom_talhao : (Romaneio.saveCom t r).talhao = r.talhao := rfl

@[simp] lemma saveCom_plantio : (Romaneio.saveCom t r).plantio = r.plantio := rfl

@[simp] lemma saveCom_motorista : (Romaneio.saveCom t r).motorista = r.motorista := rfl

@[simp] lemma saveCom_placa : (Romaneio.saveCom t r).placa = r.placa := rfl

@[simp] lemma saveCom_peso_tara : (Romaneio.saveCom t r).peso_tara = r.peso_tara := rfl

@[simp] lemma saveCom_peso_bruto : (Romaneio.saveCom t r).peso_bruto = r.peso_bruto := rfl

@[simp] lemma saveCom_umidade : (Romaneio.saveCom t r).umidade_percentual = r.umidade_percentual := rfl

@[simp] lemma saveCom_impureza : (Romaneio.saveCom t r).impureza_percentual = r.impureza_percentual := rfl

@[simp] lemma saveCom_avariado : (Romaneio.saveCom t r).avariado_percentual = r.avariado_percentual := rfl

@[simp] lemma saveCom_armazem : (Romaneio.saveCom t r).armazem_terceiro = r.armazem_terceiro := rfl

@[simp] lemma saveCom_peso_carga : (Romaneio.saveCom t r).peso_carga = r.peso_carga := rfl

@[simp] lemma saveCom_desconto_kg_umidade :
    (Romaneio.saveCom t r).desconto_kg_umidade =
      if r.desconto_kg_umidade = 0
      then descontoUmidadeCalc r.peso_carga (r.umidade_percentual.getD 0) (padraoUmid t) (taxaSec t)
      else r.desconto_kg_umidade := rfl

@[simp] lemma saveCom_desconto_kg_impureza :
    (Romaneio.saveCom t r).desconto_kg_impureza =
      if r.desconto_kg_impureza = 0
      then descontoExcessoCalc r.peso_carga (r.impureza_percentual.getD 0) (padraoImp t)
      else r.desconto_kg_impureza := rfl

@[simp] lemma saveCom_desconto_kg_avariado :
    (Romaneio.saveCom t r).desconto_kg_avariado =
      if r.desconto_kg_avariado = 0
      then descontoExcessoCalc r.peso_carga (r.avariado_percentual.getD 0) (padraoAvar t)
      else r.desconto_kg_avariado := rfl

lemma saveCom_total :
    (Romaneio.saveCom t r).total_descontos_kg =
      (Romaneio.saveCom t r).desconto_kg_umidade + (Romaneio.saveCom t r).desconto_kg_impureza
        + (Romaneio.saveCom t r).desconto_kg_avariado := rfl

lemma saveCom_quebra :
    (Romaneio.saveCom t r).peso_quebra_tecnica =
      quebraTecnicaCalc r.armazem_terceiro
        (r.peso_carga - (Romaneio.saveCom t r).total_descontos_kg) := rfl

lemma saveCom_liquido :
    (Romaneio.saveCom t r).peso_liquido =
      some ((r.peso_carga - (Romaneio.saveCom t r).total_descontos_kg)
        - (Romaneio.saveCom t r).peso_quebra_tecnica) := rfl

lemma save_eq_saveCom : Romaneio.save lookup r = Romaneio.saveCom (r.tabelaResolvida lookup) r := rfl

end ProjectionLemmas

/-- Claim C1: after the calculation runs, the stored net weight equals the load
weight minus the stored total deductions minus the stored technical-shrinkage
weight, exactly, for every combination of inputs. -/
theorem C1_peso_liquido_formula (lookup : String → Option TabelaClassificacao) (r : Romaneio) :
    (Romaneio.save lookup r).peso_liquido =
      some (r.peso_carga - (Romaneio.save lookup r).total_descontos_kg
        - (Romaneio.save lookup r).peso_quebra_tecnica) := by
  rw [save_eq_saveCom, saveCom_liquido]

/-- Claim C8: when no classification table is resolved for the ticket, the
calculation proceeds with the hardcoded defaults (14.00 / 1.00 / 0.00 / 0.00)
and the resulting record is exactly the one obtained by supplying a standard
with those values; no error or flag is produced. -/
theorem C8_padrao_fallback (lookup : String → Option TabelaClassificacao) (r : Romaneio)
    (h : r.tabelaResolvida lookup = none) :
    Romaneio.save lookup r = Romaneio.saveCom (some tabelaPadrao) r := by
  rw [save_eq_saveCom, h]
  rfl

/-- A ticket whose crop has no classification table under an empty lookup. -/
def romaneioC8 : Romaneio :=
  { romaneioBase with
    plantio := some "SOJA"
    peso_bruto := some 10000
    peso_tara := some 2000
    umidade_percentual := some 18 }

/-- Witness for claim C8 at a concrete ticket with an empty lookup. -/
theorem C8_padrao_fallback_witness :
    romaneioC8.tabelaResolvida (fun _ => none) = none ∧
      Romaneio.save (fun _ => none) romaneioC8 = Romaneio.saveCom (some tabelaPadrao) romaneioC8 :=
  ⟨rfl, C8_padrao_fallback (fun _ => none) romaneioC8 rfl⟩

/-- Claim C10: the recomputation on save writes only the derived fields; every
raw input and identifying field is left unchanged. -/
theorem C10_frame (lookup : String → Option TabelaClassificacao) (r : Romaneio) :
    (Romaneio.save lookup r).data = r.data ∧
    (Romaneio.save lookup r).numero_ticket = r.numero_ticket ∧
    (Romaneio.save lookup r).fazenda = r.fazenda ∧
    (Romaneio.save lookup r).talhao = r.talhao ∧
    (Romaneio.save lookup r).plantio = r.plantio ∧
    (Romaneio.save lookup r).motorista = r.motorista ∧
    (Romaneio.save lookup r).placa = r.placa ∧
    (Romaneio.save lookup r).peso_tara = r.peso_tara ∧
    (Romaneio.save lookup r).peso_bruto = r.peso_bruto ∧
    (Romaneio.save lookup r).umidade_percentual = r.umidade_percentual ∧
    (Romaneio.save lookup r).impureza_percentual = r.impureza_percentual ∧
    (Romaneio.save lookup r).avariado_percentual = r.avariado_percentual ∧
    (Romaneio.save lookup r).armazem_terceiro = r.armazem_terceiro :=
  ⟨rfl, rfl, rfl, rfl, rfl, rfl, rfl, rfl, rfl, rfl, rfl, rfl, rfl⟩

/-- A ticket whose gross weight is missing (`None`). -/
def romaneioC6 : Romaneio :=
  { romaneioBase with peso_bruto := none, peso_tara := some 100 }

/-- Counterexample to claim C6: a missing (null) gross weight does not raise
any error — the save hook silently coerces it to 0 via `or 0` and completes the
computation, storing the same derived fields as an explicit gross weight of 0
(here a net weight of −100 kg). -/
theorem C6_counterexample :
    (Romaneio.save (fun _ => none) romaneioC6).derivados =
        (Romaneio.save (fun _ => none) { romaneioC6 with peso_bruto := some 0 }).derivados ∧
      (Romaneio.save (fun _ => none) romaneioC6).peso_liquido = some (-100) := by
  constructor
  · rfl
  · norm_num [Romaneio.save, Romaneio.saveCom, Romaneio.tabelaResolvida, romaneioC6, romaneioBase,
      descontoUmidadeCalc, descontoExcessoCalc, quebraTecnicaCalc,
      padraoUmid, padraoImp, padraoAvar, taxaSec]

/-- Claim C6 amended: the calculation is a total function that raises no error;
a missing (null) numeric input is silently coerced to 0, producing exactly the
derived fields of an explicit 0, and the only division is by the literal 100. -/
theorem C6_amended_coercao_total (lookup : String → Option TabelaClassificacao) (r : Romaneio) :
    (Romaneio.save lookup { r with peso_bruto := none }).derivados
        = (Romaneio.save lookup { r with peso_bruto := some 0 }).derivados ∧
      (Romaneio.save lookup { r with peso_tara := none }).derivados
        = (Romaneio.save lookup { r with peso_tara := some 0 }).derivados ∧
      (Romaneio.save lookup { r with umidade_percentual := none }).derivados
        = (Romaneio.save lookup { r with umidade_percentual := some 0 }).derivados ∧
      (Romaneio.save lookup { r with impureza_percentual := none }).derivados
        = (Romaneio.save lookup { r with impureza_percentual := some 0 }).derivados ∧
      (Romaneio.save lookup { r with avariado_percentual := none }).derivados
        = (Romaneio.save lookup { r with avariado_percentual := some 0 }).derivados :=
  ⟨rfl, rfl, rfl, rfl, rfl⟩

/-- Claim C3: whenever measured moisture strictly exceeds the standard (and the
manual override is unset), the stored moisture deduction equals
`peso_carga * ((umidade - padrao) + taxa_secagem) / 100`; when there is no
excess moisture the drying fee is never charged (the deduction is 0), so the
fee is not an independent condition. -/
theorem C3_desconto_umidade_formula (lookup : String → Option TabelaClassificacao) (r : Romaneio)
    (hover : r.desconto_kg_umidade = 0) :
    (padraoUmid (r.tabelaResolvida lookup) < r.umidade_percentual.getD 0 →
      (Romaneio.save lookup r).desconto_kg_umidade =
        r.peso_carga * ((r.umidade_percentual.getD 0 - padraoUmid (r.tabelaResolvida lookup))
          + taxaSec (r.tabelaResolvida lookup)) / 100) ∧
    (¬ padraoUmid (r.tabelaResolvida lookup) < r.umidade_percentual.getD 0 →
      (Romaneio.save lookup r).desconto_kg_umidade = 0) := by
  rw [save_eq_saveCom]
  constructor
  · intro h
    rw [saveCom_desconto_kg_umidade, if_pos hover]
    simp only [descontoUmidadeCalc, if_pos h]
    ring
  · intro h
    rw [saveCom_desconto_kg_umidade, if_pos hover]
    simp only [descontoUmidadeCalc, if_neg h]

/-- The classification table of the spec's concrete scenario 2:
moisture 12 %, impurity 1 %, damage 0 %, drying fee 2 %. -/
def tabelaC3 : TabelaClassificacao :=
  { padrao_umidade := 12, padrao_impureza := 1, padrao_avariado := 0, taxa_secagem := 2 }

/-- The ticket of the spec's concrete scenario 2. -/
def romaneioC3 : Romaneio :=
  { romaneioBase with
    plantio := some "SOJA"
    peso_bruto := some 10000
    peso_tara := some 2000
    umidade_percentual := some 18
    impureza_percentual := some 1 }

/-- Witness for claim C3: scenario 2 of the spec — excess 6 % plus 2 % drying
fee on an 8000 kg load yields a 640 kg moisture deduction. -/
theorem C3_desconto_umidade_formula_witness :
    padraoUmid (romaneioC3.tabelaResolvida (fun _ => some tabelaC3))
        < romaneioC3.umidade_percentual.getD 0 ∧
      (Romaneio.save (fun _ => some tabelaC3) romaneioC3).desconto_kg_umidade = 640 := by
  have hlt : padraoUmid (romaneioC3.tabelaResolvida (fun _ => some tabelaC3))
      < romaneioC3.umidade_percentual.getD 0 := by
    norm_num [romaneioC3, romaneioBase, Romaneio.tabelaResolvida, padraoUmid, tabelaC3]
  refine ⟨hlt, ?_⟩
  rw [(C3_desconto_umidade_formula (fun _ => some tabelaC3) romaneioC3 rfl).1 hlt]
  norm_num [romaneioC3, romaneioBase, Romaneio.tabelaResolvida, Romaneio.peso_carga,
    padraoUmid, taxaSec, tabelaC3]

/-- Claim C4: for each category, when the measured percentage does not strictly
exceed the standard (boundary equality included) and the manual override is
unset, the stored deduction for that category is exactly 0. -/
theorem C4_sem_excesso_zero (lookup : String → Option TabelaClassificacao) (r : Romaneio) :
    (r.desconto_kg_umidade = 0 →
      r.umidade_percentual.getD 0 ≤ padraoUmid (r.tabelaResolvida lookup) →
      (Romaneio.save lookup r).desconto_kg_umidade = 0) ∧
    (r.desconto_kg_impureza = 0 →
      r.impureza_percentual.getD 0 ≤ padraoImp (r.tabelaResolvida lookup) →
      (Romaneio.save lookup r).desconto_kg_impureza = 0) ∧
    (r.desconto_kg_avariado = 0 →
      r.avariado_percentual.getD 0 ≤ padraoAvar (r.tabelaResolvida lookup) →
      (Romaneio.save lookup r).desconto_kg_avariado = 0) := by
  rw [save_eq_saveCom]
  refine ⟨fun h hle => ?_, fun h hle => ?_, fun h hle => ?_⟩
  · rw [saveCom_desconto_kg_umidade, if_pos h]
    simp only [descontoUmidadeCalc, if_neg (not_lt.2 hle)]
  · rw [saveCom_desconto_kg_impureza, if_pos h]
    simp only [descontoExcessoCalc, if_neg (not_lt.2 hle)]
  · rw [saveCom_desconto_kg_avariado, if_pos h]
    simp only [descontoExcessoCalc, if_neg (not_lt.2 hle)]

/-- A ticket sitting exactly at the default thresholds (moisture 14 %,
impurity 1 %, damage 0 %). -/
def romaneioC4 : Romaneio :=
  { romaneioBase with
    peso_bruto := some 5000
    umidade_percentual := some 14
    impureza_percentual := some 1
    avariado_percentual := some 0 }

/-- Witness for claim C4 at the boundary ticket: all three deductions are 0. -/
theorem C4_sem_excesso_zero_witness :
    (Romaneio.save (fun _ => none) romaneioC4).desconto_kg_umidade = 0 ∧
      (Romaneio.save (fun _ => none) romaneioC4).desconto_kg_impureza = 0 ∧
      (Romaneio.save (fun _ => none) romaneioC4).desconto_kg_avariado = 0 := by
  have h := C4_sem_excesso_zero (fun _ => none) romaneioC4
  exact ⟨h.1 rfl (by norm_num [romaneioC4, romaneioBase, Romaneio.tabelaResolvida, padraoUmid]),
    h.2.1 rfl (by norm_num [romaneioC4, romaneioBase, Romaneio.tabelaResolvida, padraoImp]),
    h.2.2 rfl (by norm_num [romaneioC4, romaneioBase, Romaneio.tabelaResolvida, padraoAvar])⟩

/-- Claim C5: a non-zero manual override for exactly one category replaces only
that category's value (never combined with the computed one) while the other
two are computed normally; an override equal to 0 is treated as unset, so the
computed value is stored for that category. -/
theorem C5_override_manual (lookup : String → Option TabelaClassificacao) (r : Romaneio) :
    (r.desconto_kg_umidade ≠ 0 → r.desconto_kg_impureza = 0 → r.desconto_kg_avariado = 0 →
      (Romaneio.save lookup r).desconto_kg_umidade = r.desconto_kg_umidade ∧
      (Romaneio.save lookup r).desconto_kg_impureza = r.descontoImpurezaCalculado lookup ∧
      (Romaneio.save lookup r).desconto_kg_avariado = r.descontoAvariadoCalculado lookup) ∧
    (r.desconto_kg_impureza ≠ 0 → r.desconto_kg_umidade = 0 → r.desconto_kg_avariado = 0 →
      (Romaneio.save lookup r).desconto_kg_umidade = r.descontoUmidadeCalculado lookup ∧
      (Romaneio.save lookup r).desconto_kg_impureza = r.desconto_kg_impureza ∧
      (Romaneio.save lookup r).desconto_kg_avariado = r.descontoAvariadoCalculado lookup) ∧
    (r.desconto_kg_avariado ≠ 0 → r.desconto_kg_umidade = 0 → r.desconto_kg_impureza = 0 →
      (Romaneio.save lookup r).desconto_kg_umidade = r.descontoUmidadeCalculado lookup ∧
      (Romaneio.save lookup r).desconto_kg_impureza = r.descontoImpurezaCalculado lookup ∧
      (Romaneio.save lookup r).desconto_kg_avariado = r.desconto_kg_avariado) ∧
    (r.desconto_kg_umidade = 0 →
      (Romaneio.save lookup r).desconto_kg_umidade = r.descontoUmidadeCalculado lookup) ∧
    (r.desconto_kg_impureza = 0 →
      (Romaneio.save lookup r).desconto_kg_impureza = r.descontoImpurezaCalculado lookup) ∧
    (r.desconto_kg_avariado = 0 →
      (Romaneio.save lookup r).desconto_kg_avariado = r.descontoAvariadoCalculado lookup) := by
  rw [save_eq_saveCom]
  refine ⟨fun h1 h2 h3 => ⟨?_, ?_, ?_⟩, fun h1 h2 h3 => ⟨?_, ?_, ?_⟩,
    fun h1 h2 h3 => ⟨?_, ?_, ?_⟩, fun h => ?_, fun h => ?_, fun h => ?_⟩ <;>
    simp_all [Romaneio.descontoUmidadeCalculado, Romaneio.descontoImpurezaCalculado,
      Romaneio.descontoAvariadoCalculado]

/-- Scenario 4 of the spec: scenario 1's raw percentages plus a 100 kg manual
moisture override. -/
def romaneioC5 : Romaneio :=
  { romaneioBase with
    peso_bruto := some 10000
    peso_tara := some 2000
    umidade_percentual := some 18
    impureza_percentual := some (1/2 : ℚ)
    desconto_kg_umidade := 100 }

/-- Witness for claim C5: with the 100 kg manual moisture override the stored
moisture deduction is 100 (not the computed 320), the other two stay at their
computed 0, and the net weight is 7900 kg. -/
theorem C5_override_manual_witness :
    (Romaneio.save (fun _ => none) romaneioC5).desconto_kg_umidade = 100 ∧
      (Romaneio.save (fun _ => none) romaneioC5).desconto_kg_impureza = 0 ∧
      (Romaneio.save (fun _ => none) romaneioC5).desconto_kg_avariado = 0 ∧
      (Romaneio.save (fun _ => none) romaneioC5).peso_liquido = some 7900 := by
  have h := (C5_override_manual (fun _ => none) romaneioC5).1
    (by norm_num [romaneioC5, romaneioBase]) rfl rfl
  refine ⟨h.1.trans (by norm_num [romaneioC5, romaneioBase]),
    h.2.1.trans ?_, h.2.2.trans ?_, ?_⟩
  · norm_num [Romaneio.descontoImpurezaCalculado, descontoExcessoCalc, romaneioC5, romaneioBase,
      Romaneio.tabelaResolvida, Romaneio.peso_carga, padraoImp]
  · norm_num [Romaneio.descontoAvariadoCalculado, descontoExcessoCalc, romaneioC5, romaneioBase,
      Romaneio.tabelaResolvida, Romaneio.peso_carga, padraoAvar]
  · norm_num [Romaneio.save, Romaneio.saveCom, Romaneio.tabelaResolvida, romaneioC5, romaneioBase,
      descontoUmidadeCalc, descontoExcessoCalc, quebraTecnicaCalc,
      padraoUmid, padraoImp, padraoAvar, taxaSec]

/-- Scenario 3 of the spec: scenario 1's ticket plus a warehouse with a 2 %
technical-shrinkage rate. -/
def romaneioC9 : Romaneio :=
  { romaneioBase with
    peso_bruto := some 10000
    peso_tara := some 2000
    umidade_percentual := some 18
    impureza_percentual := some (1/2 : ℚ)
    armazem_terceiro := some { quebra_tecnica := some 2 } }

/-- Claim C9: the stored shrinkage equals the post-classification weight times
`rate / 100` when a warehouse is linked and 0 otherwise; on scenario 3 the
post-classification weight is 7680 kg, the shrinkage 153.6 kg and the net
weight 7526.4 kg. -/
theorem C9_quebra_tecnica_formula :
    (∀ (lookup : String → Option TabelaClassificacao) (r : Romaneio) (a : TaxaArmazem),
      r.armazem_terceiro = some a →
      (Romaneio.save lookup r).peso_quebra_tecnica =
        (r.peso_carga - (Romaneio.save lookup r).total_descontos_kg)
          * (a.quebra_tecnica.getD 0 / 100)) ∧
    (∀ (lookup : String → Option TabelaClassificacao) (r : Romaneio),
      r.armazem_terceiro = none → (Romaneio.save lookup r).peso_quebra_tecnica = 0) ∧
    (romaneioC9.peso_carga
        - (Romaneio.save (fun _ => none) romaneioC9).total_descontos_kg = 7680 ∧
      (Romaneio.save (fun _ => none) romaneioC9).peso_quebra_tecnica = 153.6 ∧
      (Romaneio.save (fun _ => none) romaneioC9).peso_liquido = some 7526.4) := by
  refine ⟨fun lookup r a h => ?_, fun lookup r h => ?_, ?_, ?_, ?_⟩
  · rw [save_eq_saveCom, saveCom_quebra, h]
    simp only [quebraTecnicaCalc, save_eq_saveCom]
  · rw [save_eq_saveCom, saveCom_quebra, h]
    simp only [quebraTecnicaCalc]
  · norm_num [Romaneio.save, Romaneio.saveCom, Romaneio.tabelaResolvida, romaneioC9, romaneioBase,
      Romaneio.peso_carga, descontoUmidadeCalc, descontoExcessoCalc, quebraTecnicaCalc,
      padraoUmid, padraoImp, padraoAvar, taxaSec]
  · norm_num [Romaneio.save, Romaneio.saveCom, Romaneio.tabelaResolvida, romaneioC9, romaneioBase,
      Romaneio.peso_carga, descontoUmidadeCalc, descontoExcessoCalc, quebraTecnicaCalc,
      padraoUmid, padraoImp, padraoAvar, taxaSec]
  · norm_num [Romaneio.save, Romaneio.saveCom, Romaneio.tabelaResolvida, romaneioC9, romaneioBase,
      Romaneio.peso_carga, descontoUmidadeCalc, descontoExcessoCalc, quebraTecnicaCalc,
      padraoUmid, padraoImp, padraoAvar, taxaSec]

/-- Witness for claim C9: the warehouse branch applied to scenario 3's
ticket. -/
theorem C9_quebra_tecnica_formula_witness :
    (Romaneio.save (fun _ => none) romaneioC9).peso_quebra_tecnica =
      (romaneioC9.peso_carga - (Romaneio.save (fun _ => none) romaneioC9).total_descontos_kg)
        * ((some (2 : ℚ)).getD 0 / 100) :=
  C9_quebra_tecnica_formula.1 (fun _ => none) romaneioC9 { quebra_tecnica := some 2 } rfl

lemma descontoUmidadeCalc_nonneg (peso_carga umidade padrao taxa : ℚ)
    (hc : 0 ≤ peso_carga) (ht : 0 ≤ taxa) :
    0 ≤ descontoUmidadeCalc peso_carga umidade padrao taxa := by
  unfold descontoUmidadeCalc
  split
  · rename_i h
    have h1 : 0 ≤ peso_carga * ((umidade - padrao) / 100) := by
      apply mul_nonneg hc
      have : (0 : ℚ) < umidade - padrao := by linarith
      positivity
    have h2 : 0 ≤ peso_carga * (taxa / 100) := by positivity
    linarith
  · exact le_refl 0

lemma descontoExcessoCalc_nonneg (peso_carga pct padrao : ℚ) (hc : 0 ≤ peso_carga) :
    0 ≤ descontoExcessoCalc peso_carga pct padrao := by
  unfold descontoExcessoCalc
  split
  · rename_i h
    apply mul_nonneg hc
    have : (0 : ℚ) < pct - padrao := by linarith
    positivity
  · exact le_refl 0

/-- A ticket carrying a negative manual moisture override. -/
def romaneioC2 : Romaneio :=
  { romaneioBase with peso_bruto := some 1000, desconto_kg_umidade := -100 }

/-- Counterexample to claim C2: a negative manual moisture override (−100 kg)
is non-zero, so the save hook keeps it; the total deductions become −100 kg and
the stored net weight (1100 kg) exceeds the 1000 kg load weight. -/
theorem C2_counterexample :
    (Romaneio.save (fun _ => none) romaneioC2).peso_liquido = some 1100 ∧
      ¬ ((1100 : ℚ) ≤ romaneioC2.peso_carga) := by
  constructor
  · norm_num [Romaneio.save, Romaneio.saveCom, Romaneio.tabelaResolvida, romaneioC2, romaneioBase,
      descontoUmidadeCalc, descontoExcessoCalc, quebraTecnicaCalc,
      padraoUmid, padraoImp, padraoAvar, taxaSec]
  · norm_num [romaneioC2, romaneioBase, Romaneio.peso_carga]

/-- Claim C2 amended: the stored net weight never exceeds the load weight
provided the load weight and the manual overrides are non-negative, the
resolved drying fee is non-negative, and any linked warehouse's shrinkage rate
lies between 0 and 100 %; without those restrictions the inequality fails (see
the counterexample). -/
theorem C2_amended_peso_liquido_le (lookup : String → Option TabelaClassificacao) (r : Romaneio)
    (hc : 0 ≤ r.peso_carga)
    (hu : 0 ≤ r.desconto_kg_umidade)
    (hi : 0 ≤ r.desconto_kg_impureza)
    (ha : 0 ≤ r.desconto_kg_avariado)
    (hs : 0 ≤ taxaSec (r.tabelaResolvida lookup))
    (hq : ∀ a : TaxaArmazem, r.armazem_terceiro = some a →
      0 ≤ a.quebra_tecnica.getD 0 ∧ a.quebra_tecnica.getD 0 ≤ 100) :
    (Romaneio.save lookup r).peso_liquido.getD 0 ≤ r.peso_carga := by
  rw [save_eq_saveCom, saveCom_liquido, Option.getD_some]
  set t := r.tabelaResolvida lookup with ht
  have htot : 0 ≤ (Romaneio.saveCom t r).total_descontos_kg := by
    rw [saveCom_total, saveCom_desconto_kg_umidade, saveCom_desconto_kg_impureza,
      saveCom_desconto_kg_avariado]
    have h1 : 0 ≤ if r.desconto_kg_umidade = 0
        then descontoUmidadeCalc r.peso_carga (r.umidade_percentual.getD 0)
          (padraoUmid t) (taxaSec t)
        else r.desconto_kg_umidade := by
      split
      · exact descontoUmidadeCalc_nonneg _ _ _ _ hc hs
      · exact hu
    have h2 : 0 ≤ if r.desconto_kg_impureza = 0
        then descontoExcessoCalc r.peso_carga (r.impureza_percentual.getD 0) (padraoImp t)
        else r.desconto_kg_impureza := by
      split
      · exact descontoExcessoCalc_nonneg _ _ _ hc
      · exact hi
    have h3 : 0 ≤ if r.desconto_kg_avariado = 0
        then descontoExcessoCalc r.peso_carga (r.avariado_percentual.getD 0) (padraoAvar t)
        else r.desconto_kg_avariado := by
      split
      · exact descontoExcessoCalc_nonneg _ _ _ hc
      · exact ha
    linarith
  rw [saveCom_quebra]
  set D := (Romaneio.saveCom t r).total_descontos_kg with hD
  set pos := r.peso_carga - D with hpos
  have hposle : pos ≤ r.peso_carga := by rw [hpos]; linarith
  cases harm : r.armazem_terceiro with
  | none => simp only [quebraTecnicaCalc]; linarith
  | some a =>
    obtain ⟨hg0, hg100⟩ := hq a harm
    simp only [quebraTecnicaCalc]
    rcases le_or_lt 0 pos with hp | hp
    · have : 0 ≤ pos * (a.quebra_tecnica.getD 0 / 100) := by positivity
      linarith
    · have hfac : 0 ≤ 1 - a.quebra_tecnica.getD 0 / 100 := by linarith
      have : pos - pos * (a.quebra_tecnica.getD 0 / 100)
          = pos * (1 - a.quebra_tecnica.getD 0 / 100) := by ring
      rw [this]
      have : pos * (1 - a.quebra_tecnica.getD 0 / 100) ≤ 0 :=
        mul_nonpos_of_nonpos_of_nonneg (le_of_lt hp) hfac
      linarith

/-- Witness for the amended claim C2 at scenario 3's ticket (non-negative load,
overrides, fee, and a 2 % shrinkage rate). -/
theorem C2_amended_peso_liquido_le_witness :
    (Romaneio.save (fun _ => none) romaneioC9).peso_liquido.getD 0 ≤ romaneioC9.peso_carga := by
  apply C2_amended_peso_liquido_le
  · norm_num [romaneioC9, romaneioBase, Romaneio.peso_carga]
  · norm_num [romaneioC9, romaneioBase]
  · norm_num [romaneioC9, romaneioBase]
  · norm_num [romaneioC9, romaneioBase]
  · norm_num [romaneioC9, romaneioBase, Romaneio.tabelaResolvida, taxaSec]
  · intro a h
    have : a = { quebra_tecnica := some 2 } := by
      simpa [romaneioC9, romaneioBase] using h.symm
    subst this
    norm_num

lemma override_idem (x a : ℚ) :
    (if (if x = 0 then a else x) = 0 then a else if x = 0 then a else x)
      = if x = 0 then a else x := by
  by_cases hx : x = 0 <;> simp [hx]

lemma saveCom_idem (t : Option TabelaClassificacao) (r : Romaneio) :
    Romaneio.saveCom t (Romaneio.saveCom t r) = Romaneio.saveCom t r := by
  ext <;>
    simp [saveCom_total, saveCom_quebra, saveCom_liquido, override_idem]

/-- Claim C7: running the save-hook calculation twice with the same raw inputs
(the second run reading back the deduction fields the first run stored) yields
exactly the same record: the stored non-zero deductions are picked up as
overrides equal to their own computed values, and every derived field comes out
identical. -/
theorem C7_idempotente (lookup : String → Option TabelaClassificacao) (r : Romaneio) :
    Romaneio.save lookup (Romaneio.save lookup r) = Romaneio.save lookup r := by
  have h : (Romaneio.save lookup r).tabelaResolvida lookup = r.tabelaResolvida lookup := rfl
  rw [save_eq_saveCom lookup (Romaneio.save lookup r), h, save_eq_saveCom lookup r]
  exact saveCom_idem _ _

end Fazendas
